import Mathlib

/-
Verification of the interactive image crop-and-adjust engine of
TribeBuilder.  All definitions in this file are shallow embeddings of the
ImageEditor component in src/client/src/pages/MediaUpload.tsx: the
non-destructive adjustment pipeline (applyBrightnessContrast, applyFilter,
applyImageAdjustments), the crop-session geometry (getDragType,
handleMouseDown, handleMouseMove, startCrop, confirmCrop, setAspectRatio)
and the orchestrating React state (modelled as an explicit record, with
each setter composed with the useEffect recompute it triggers).
Pixel channels are exact rationals: they carry the exact arithmetic the
source performs on each channel before the 8-bit store.
-/

namespace ImageEditor

/-- One RGBA sample of an ImageData buffer. -/
structure Pixel where
  r : ℚ
  g : ℚ
  b : ℚ
  a : ℚ
deriving DecidableEq

/-- An ImageData value: width, height and a row-major list of pixels. -/
structure Buffer where
  width : ℕ
  height : ℕ
  data : List Pixel
deriving DecidableEq

/-- Out-of-range reads of getImageData yield transparent black. -/
def defaultPixel : Pixel := ⟨0, 0, 0, 0⟩

/-- Opaque white, the stroke color (strokeStyle = white) of drawCropOverlay. -/
def whitePixel : Pixel := ⟨255, 255, 255, 255⟩

/-- Opaque black, used for concrete test buffers. -/
def blackPixel : Pixel := ⟨0, 0, 0, 255⟩

/-- Pixel at column x, row y; transparent black outside the buffer. -/
def getPx (img : Buffer) (x y : ℕ) : Pixel :=
  if x < img.width ∧ y < img.height then img.data.getD (y * img.width + x) defaultPixel
  else defaultPixel

/-- Buffer of dimensions w × h with every pixel equal to p. -/
def solidBuffer (w h : ℕ) (p : Pixel) : Buffer :=
  ⟨w, h, List.replicate (w * h) p⟩

/-- ctx.getImageData(rx, ry, rw, rh): the rw × rh sub-buffer whose pixel
(i, j) is read from (rx + i, ry + j) of the source canvas, transparent
black where that reaches outside the canvas. -/
def getImageDataRect (img : Buffer) (rx ry rw rh : ℕ) : Buffer :=
  ⟨rw, rh, (List.range (rh * rw)).map fun k => getPx img (rx + k % rw) (ry + k / rw)⟩

/-- Math.max(0, Math.min(255, v)), the clamp in applyBrightnessContrast. -/
def clamp255 (v : ℚ) : ℚ := max 0 (min 255 v)

/-- contrastFactor computed at the top of applyBrightnessContrast. -/
def contrastFactor (contrast : ℚ) : ℚ := (259 * (contrast + 255)) / (255 * (259 - contrast))

/-- Per-channel arithmetic of applyBrightnessContrast, in source order:
pixel += brightness; pixel = contrastFactor * (pixel - 128) + 128; clamp. -/
def bcValue (brightness contrast v : ℚ) : ℚ :=
  clamp255 (contrastFactor contrast * ((v + brightness) - 128) + 128)

/-- applyBrightnessContrast from MediaUpload.tsx: the R, G and B channel of
every pixel goes through bcValue, alpha is copied unchanged, dimensions
kept. -/
def applyBrightnessContrast (img : Buffer) (brightness contrast : ℚ) : Buffer :=
  { img with data := img.data.map fun p =>
      ⟨bcValue brightness contrast p.r, bcValue brightness contrast p.g,
       bcValue brightness contrast p.b, p.a⟩ }

/-- The adjustment formula exactly as the specification states it, written
out independently of the source embedding so the two can be compared:
value is mapped to clamp(contrastFactor * ((value + brightness) - 128) + 128, 0, 255)
with contrastFactor = (259 * (contrast + 255)) / (255 * (259 - contrast)),
on R, G and B, and alpha is untouched. -/
def specBrightnessContrastPixel (brightness contrast : ℚ) (p : Pixel) : Pixel :=
  ⟨max 0 (min 255 ((259 * (contrast + 255)) / (255 * (259 - contrast)) * ((p.r + brightness) - 128) + 128)),
   max 0 (min 255 ((259 * (contrast + 255)) / (255 * (259 - contrast)) * ((p.g + brightness) - 128) + 128)),
   max 0 (min 255 ((259 * (contrast + 255)) / (255 * (259 - contrast)) * ((p.b + brightness) - 128) + 128)),
   p.a⟩

/-- Per-pixel switch of applyFilter in MediaUpload.tsx, keyed by the raw
filter string; the default branch copies the pixel unchanged. -/
def applyFilterPixel (filterType : String) (p : Pixel) : Pixel :=
  if filterType = "grayscale" then
    ⟨0.299 * p.r + 0.587 * p.g + 0.114 * p.b, 0.299 * p.r + 0.587 * p.g + 0.114 * p.b,
     0.299 * p.r + 0.587 * p.g + 0.114 * p.b, p.a⟩
  else if filterType = "sepia" then
    ⟨min 255 (p.r * 0.393 + p.g * 0.769 + p.b * 0.189),
     min 255 (p.r * 0.349 + p.g * 0.686 + p.b * 0.168),
     min 255 (p.r * 0.272 + p.g * 0.534 + p.b * 0.131), p.a⟩
  else if filterType = "vintage" then
    ⟨min 255 (p.r * 1.2 + 20), min 255 (p.g * 1.1 + 10), max 0 (p.b * 0.8 - 10), p.a⟩
  else if filterType = "cool" then
    ⟨max 0 (p.r * 0.8), min 255 (p.g * 1.1), min 255 (p.b * 1.3), p.a⟩
  else if filterType = "warm" then
    ⟨min 255 (p.r * 1.2), min 255 (p.g * 1.1), max 0 (p.b * 0.7), p.a⟩
  else ⟨p.r, p.g, p.b, p.a⟩

/-- applyFilter from MediaUpload.tsx: per-pixel map, dimensions kept. -/
def applyFilter (img : Buffer) (filterType : String) : Buffer :=
  { img with data := img.data.map (applyFilterPixel filterType) }

/-- The filter identifiers recognised by the switch in applyFilter. -/
abbrev recognizedFilter (f : String) : Prop :=
  f = "grayscale" ∨ f = "sepia" ∨ f = "vintage" ∨ f = "cool" ∨ f = "warm"

/-- The brightness/contrast stage of applyImageAdjustments: the per-pixel
pass runs only when brightness or contrast is nonzero, otherwise the
buffer passes through untouched. -/
def brightnessContrastStep (img : Buffer) (brightness contrast : ℚ) : Buffer :=
  if brightness ≠ 0 ∨ contrast ≠ 0 then applyBrightnessContrast img brightness contrast else img

/-- The filter stage of applyImageAdjustments: applied only when
activeFilter is non-null (null is modelled as none). -/
def filterStep (img : Buffer) (activeFilter : Option String) : Buffer :=
  match activeFilter with
  | some filterType => applyFilter img filterType
  | none => img

/-- The full recompute performed by applyImageAdjustments, always starting
from the untouched original buffer. -/
def computePipeline (original : Buffer) (brightness contrast : ℚ)
    (activeFilter : Option String) : Buffer :=
  filterStep (brightnessContrastStep original brightness contrast) activeFilter

/-- The crop selection rectangle, in buffer units (floats in the source,
modelled as exact rationals). -/
structure Rect where
  x : ℚ
  y : ℚ
  width : ℚ
  height : ℚ
deriving DecidableEq

/-- The drag-kind strings of the source (move, resize-nw, resize-ne, and
so on) as a closed enumeration. -/
inductive DragType where
  | move | resizeNW | resizeNE | resizeSW | resizeSE
  | resizeN | resizeS | resizeW | resizeE
deriving DecidableEq

/-- getDragType from MediaUpload.tsx: sequential hit tests with
handleSize = 15, corners first, then edges, then the inset interior;
null (no hit) is modelled as none. -/
def getDragType (rect : Rect) (mouseX mouseY : ℚ) : Option DragType :=
  if mouseX ≥ rect.x - 15 ∧ mouseX ≤ rect.x + 15 ∧
     mouseY ≥ rect.y - 15 ∧ mouseY ≤ rect.y + 15 then some .resizeNW
  else if mouseX ≥ rect.x + rect.width - 15 ∧ mouseX ≤ rect.x + rect.width + 15 ∧
     mouseY ≥ rect.y - 15 ∧ mouseY ≤ rect.y + 15 then some .resizeNE
  else if mouseX ≥ rect.x - 15 ∧ mouseX ≤ rect.x + 15 ∧
     mouseY ≥ rect.y + rect.height - 15 ∧ mouseY ≤ rect.y + rect.height + 15 then some .resizeSW
  else if mouseX ≥ rect.x + rect.width - 15 ∧ mouseX ≤ rect.x + rect.width + 15 ∧
     mouseY ≥ rect.y + rect.height - 15 ∧ mouseY ≤ rect.y + rect.height + 15 then some .resizeSE
  else if mouseX ≥ rect.x + rect.width / 2 - 15 ∧ mouseX ≤ rect.x + rect.width / 2 + 15 ∧
     mouseY ≥ rect.y - 15 ∧ mouseY ≤ rect.y + 15 then some .resizeN
  else if mouseX ≥ rect.x + rect.width / 2 - 15 ∧ mouseX ≤ rect.x + rect.width / 2 + 15 ∧
     mouseY ≥ rect.y + rect.height - 15 ∧ mouseY ≤ rect.y + rect.height + 15 then some .resizeS
  else if mouseX ≥ rect.x - 15 ∧ mouseX ≤ rect.x + 15 ∧
     mouseY ≥ rect.y + rect.height / 2 - 15 ∧ mouseY ≤ rect.y + rect.height / 2 + 15 then some .resizeW
  else if mouseX ≥ rect.x + rect.width - 15 ∧ mouseX ≤ rect.x + rect.width + 15 ∧
     mouseY ≥ rect.y + rect.height / 2 - 15 ∧ mouseY ≤ rect.y + rect.height / 2 + 15 then some .resizeE
  else if mouseX ≥ rect.x + 15 ∧ mouseX ≤ rect.x + rect.width - 15 ∧
     mouseY ≥ rect.y + 15 ∧ mouseY ≤ rect.y + rect.height - 15 then some .move
  else none

/-- A coordinate is within the fixed 15-buffer-unit hit tolerance of the
anchor coordinate of a handle. -/
abbrev near (m c : ℚ) : Prop := |m - c| ≤ 15

/-- The hit region of each handle kind, stated the way the specification
describes the hit test: each resize handle is hit within the 15-unit
tolerance of its anchor point (corners of the rectangle, midpoints of its
edges); the Move region is the interior inset by the tolerance. -/
def hitRegion (rect : Rect) (dt : DragType) (mouseX mouseY : ℚ) : Prop :=
  match dt with
  | .resizeNW => near mouseX rect.x ∧ near mouseY rect.y
  | .resizeNE => near mouseX (rect.x + rect.width) ∧ near mouseY rect.y
  | .resizeSW => near mouseX rect.x ∧ near mouseY (rect.y + rect.height)
  | .resizeSE => near mouseX (rect.x + rect.width) ∧ near mouseY (rect.y + rect.height)
  | .resizeN => near mouseX (rect.x + rect.width / 2) ∧ near mouseY rect.y
  | .resizeS => near mouseX (rect.x + rect.width / 2) ∧ near mouseY (rect.y + rect.height)
  | .resizeW => near mouseX rect.x ∧ near mouseY (rect.y + rect.height / 2)
  | .resizeE => near mouseX (rect.x + rect.width) ∧ near mouseY (rect.y + rect.height / 2)
  | .move =>
      mouseX ≥ rect.x + 15 ∧ mouseX ≤ rect.x + rect.width - 15 ∧
      mouseY ≥ rect.y + 15 ∧ mouseY ≤ rect.y + rect.height - 15

instance (rect : Rect) (dt : DragType) (mouseX mouseY : ℚ) :
    Decidable (hitRegion rect dt mouseX mouseY) := by
  unfold hitRegion; cases dt <;> exact inferInstance

/-- The priority order the specification states for overlapping hit
regions: corner handles first, then edge handles, then the interior. -/
def hitOrder : List DragType :=
  [.resizeNW, .resizeNE, .resizeSW, .resizeSE, .resizeN, .resizeS, .resizeW, .resizeE, .move]

/-- Specification-side hit test: the first handle kind, in priority order,
whose region contains the pointer. -/
def priorityHitTest (rect : Rect) (mouseX mouseY : ℚ) : Option DragType :=
  if hitRegion rect .resizeNW mouseX mouseY then some .resizeNW
  else if hitRegion rect .resizeNE mouseX mouseY then some .resizeNE
  else if hitRegion rect .resizeSW mouseX mouseY then some .resizeSW
  else if hitRegion rect .resizeSE mouseX mouseY then some .resizeSE
  else if hitRegion rect .resizeN mouseX mouseY then some .resizeN
  else if hitRegion rect .resizeS mouseX mouseY then some .resizeS
  else if hitRegion rect .resizeW mouseX mouseY then some .resizeW
  else if hitRegion rect .resizeE mouseX mouseY then some .resizeE
  else if hitRegion rect .move mouseX mouseY then some .move
  else none

/-- JavaScript truthiness of the aspectRatio state: null and 0 are both
falsy, any other number activates the aspect-ratio branch. -/
def arActive (ar : Option ℚ) : Option ℚ :=
  match ar with
  | some a => if a = 0 then none else some a
  | none => none

/-- The switch statement of handleMouseMove in MediaUpload.tsx: given the
canvas dimensions, the aspect-ratio state, the current rectangle, the
drag kind and the pointer delta, the proposed new rectangle before the
final bounds clamp.  Guards that fail leave the rectangle unchanged. -/
def applyDragDelta (cw ch : ℚ) (ar : Option ℚ) (rect : Rect) (dt : DragType)
    (dx dy : ℚ) : Rect :=
  match dt with
  | .move =>
      { rect with x := max 0 (min (cw - rect.width) (rect.x + dx)),
                  y := max 0 (min (ch - rect.height) (rect.y + dy)) }
  | .resizeNW =>
      if rect.width - dx > 20 ∧ rect.height - dy > 20 ∧ rect.x + dx ≥ 0 ∧ rect.y + dy ≥ 0 then
        match arActive ar with
        | some _ =>
            { x := rect.x + (dx + dy) / 2, y := rect.y + (dx + dy) / 2,
              width := max 20 (rect.width - (dx + dy) / 2),
              height := max 20 (rect.height - (dx + dy) / 2) }
        | none =>
            { x := rect.x + dx, y := rect.y + dy,
              width := rect.width - dx, height := rect.height - dy }
      else rect
  | .resizeNE =>
      if rect.width + dx > 20 ∧ rect.height - dy > 20 ∧
         rect.x + (rect.width + dx) ≤ cw ∧ rect.y + dy ≥ 0 then
        match arActive ar with
        | some _ =>
            { rect with y := rect.y - (dx - dy) / 2,
                        width := max 20 (rect.width + (dx - dy) / 2),
                        height := max 20 (rect.height + (dx - dy) / 2) }
        | none =>
            { rect with y := rect.y + dy,
                        width := rect.width + dx, height := rect.height - dy }
      else rect
  | .resizeSW =>
      if rect.width - dx > 20 ∧ rect.height + dy > 20 ∧
         rect.x + dx ≥ 0 ∧ rect.y + (rect.height + dy) ≤ ch then
        match arActive ar with
        | some _ =>
            { rect with x := rect.x - (-dx + dy) / 2,
                        width := max 20 (rect.width + (-dx + dy) / 2),
                        height := max 20 (rect.height + (-dx + dy) / 2) }
        | none =>
            { rect with x := rect.x + dx,
                        width := rect.width - dx, height := rect.height + dy }
      else rect
  | .resizeSE =>
      if rect.width + dx > 20 ∧ rect.height + dy > 20 ∧
         rect.x + (rect.width + dx) ≤ cw ∧ rect.y + (rect.height + dy) ≤ ch then
        match arActive ar with
        | some _ =>
            { rect with width := max 20 (rect.width + (dx + dy) / 2),
                        height := max 20 (rect.height + (dx + dy) / 2) }
        | none =>
            { rect with width := rect.width + dx, height := rect.height + dy }
      else rect
  | .resizeN =>
      if rect.height - dy > 20 ∧ rect.y + dy ≥ 0 then
        match arActive ar with
        | some ratio =>
            { x := rect.x + (rect.width - (rect.height - dy) * ratio) / 2, y := rect.y + dy,
              width := (rect.height - dy) * ratio, height := rect.height - dy }
        | none =>
            { rect with y := rect.y + dy, height := rect.height - dy }
      else rect
  | .resizeS =>
      if rect.height + dy > 20 ∧ rect.y + (rect.height + dy) ≤ ch then
        match arActive ar with
        | some ratio =>
            { rect with x := rect.x + (rect.width - (rect.height + dy) * ratio) / 2,
                        width := (rect.height + dy) * ratio, height := rect.height + dy }
        | none =>
            { rect with height := rect.height + dy }
      else rect
  | .resizeW =>
      if rect.width - dx > 20 ∧ rect.x + dx ≥ 0 then
        match arActive ar with
        | some ratio =>
            { x := rect.x + dx, y := rect.y + (rect.height - (rect.width - dx) / ratio) / 2,
              width := rect.width - dx, height := (rect.width - dx) / ratio }
        | none =>
            { rect with x := rect.x + dx, width := rect.width - dx }
      else rect
  | .resizeE =>
      if rect.width + dx > 20 ∧ rect.x + (rect.width + dx) ≤ cw then
        match arActive ar with
        | some ratio =>
            { rect with y := rect.y + (rect.height - (rect.width + dx) / ratio) / 2,
                        width := rect.width + dx, height := (rect.width + dx) / ratio }
        | none =>
            { rect with width := rect.width + dx }
      else rect

/-- The four unconditional clamping assignments at the end of
handleMouseMove, in source order (x and y first, using the new width and
height, then width and height against the clamped corner). -/
def clampRect (cw ch : ℚ) (r : Rect) : Rect :=
  { x := max 0 (min (cw - r.width) r.x),
    y := max 0 (min (ch - r.height) r.y),
    width := min (cw - max 0 (min (cw - r.width) r.x)) r.width,
    height := min (ch - max 0 (min (ch - r.height) r.y)) r.height }

/-- One full pointer-move step of an active drag in handleMouseMove: the
handle-specific transform followed by the final bounds clamp. -/
def handleMouseMoveStep (cw ch : ℚ) (ar : Option ℚ) (rect : Rect) (dt : DragType)
    (dx dy : ℚ) : Rect :=
  clampRect cw ch (applyDragDelta cw ch ar rect dt dx dy)

/-- The rectangle lies fully inside the cw × ch canvas. -/
abbrev inBounds (cw ch : ℚ) (r : Rect) : Prop :=
  0 ≤ r.x ∧ 0 ≤ r.y ∧ r.x + r.width ≤ cw ∧ r.y + r.height ≤ ch

/-- The width and height a pointer-move step proposes for the rectangle
before any guard or clamp is applied, per handle kind. -/
def proposedSize (r : Rect) (dt : DragType) (dx dy : ℚ) : ℚ × ℚ :=
  match dt with
  | .move => (r.width, r.height)
  | .resizeNW => (r.width - dx, r.height - dy)
  | .resizeNE => (r.width + dx, r.height - dy)
  | .resizeSW => (r.width - dx, r.height + dy)
  | .resizeSE => (r.width + dx, r.height + dy)
  | .resizeN => (r.width, r.height - dy)
  | .resizeS => (r.width, r.height + dy)
  | .resizeW => (r.width - dx, r.height)
  | .resizeE => (r.width + dx, r.height)

/-- Conversion from a rational crop coordinate to the integer argument
getImageData and canvas sizing actually receive (WebIDL integer
conversion; the coordinates of interest are nonnegative). -/
def qToNat (q : ℚ) : ℕ := ⌊q⌋.toNat

/-- The React state of the ImageEditor component that the crop and
adjustment logic touches, as one explicit record.  sourceImage is the
decoded uploadedImage / generatedImage data URL; originalImageData and
the canvas contents are ImageData buffers. -/
structure EditorState where
  sourceImage : Buffer
  originalImageData : Buffer
  canvas : Buffer
  brightness : ℚ
  contrast : ℚ
  activeFilter : Option String
  isCropping : Bool
  cropRect : Option Rect
  aspectRatio : Option ℚ
  isDragging : Bool
  dragStart : Option (ℚ × ℚ)
  dragType : Option DragType
deriving DecidableEq

/-- loadImageToCanvas from MediaUpload.tsx, composed with the initial
component state: draws the decoded image onto the canvas, stores it as
originalImageData, clears the crop state and resets brightness, contrast
and the active filter. -/
def loadImageToCanvas (img : Buffer) : EditorState :=
  { sourceImage := img, originalImageData := img, canvas := img,
    brightness := 0, contrast := 0, activeFilter := none,
    isCropping := false, cropRect := none, aspectRatio := none,
    isDragging := false, dragStart := none, dragType := none }

/-- applyImageAdjustments from MediaUpload.tsx: recomputes the canvas from
originalImageData through the brightness/contrast stage and the filter
stage. -/
def applyImageAdjustments (s : EditorState) : EditorState :=
  { s with canvas := computePipeline s.originalImageData s.brightness s.contrast s.activeFilter }

/-- handleBrightnessChange composed with the useEffect on
[brightness, contrast, activeFilter, originalImageData] that reruns
applyImageAdjustments after the state update. -/
def handleBrightnessChange (b : ℚ) (s : EditorState) : EditorState :=
  applyImageAdjustments { s with brightness := b }

/-- handleContrastChange composed with the same recompute effect. -/
def handleContrastChange (c : ℚ) (s : EditorState) : EditorState :=
  applyImageAdjustments { s with contrast := c }

/-- handleFilterChange from MediaUpload.tsx, composed with the recompute
effect: setActiveFilter(activeFilter === filterType ? null : filterType). -/
def handleFilterChange (filterType : String) (s : EditorState) : EditorState :=
  applyImageAdjustments
    { s with activeFilter := if s.activeFilter = some filterType then none else some filterType }

/-- resetAdjustments from MediaUpload.tsx: zeroes brightness and contrast,
clears the filter and puts originalImageData back on the canvas. -/
def resetAdjustments (s : EditorState) : EditorState :=
  { s with brightness := 0, contrast := 0, activeFilter := none,
           canvas := s.originalImageData }

/-- startCrop from MediaUpload.tsx: centers an initial square selection of
side 0.5 * min(canvas.width, canvas.height). -/
def startCrop (s : EditorState) : EditorState :=
  { s with isCropping := true,
           cropRect := some
             { x := ((s.canvas.width : ℚ) - min (s.canvas.width : ℚ) (s.canvas.height : ℚ) * 0.5) / 2,
               y := ((s.canvas.height : ℚ) - min (s.canvas.width : ℚ) (s.canvas.height : ℚ) * 0.5) / 2,
               width := min (s.canvas.width : ℚ) (s.canvas.height : ℚ) * 0.5,
               height := min (s.canvas.width : ℚ) (s.canvas.height : ℚ) * 0.5 } }

/-- The setAspectRatio state setter, as invoked by the aspect-ratio buttons
of the crop tools panel: it records the ratio and does nothing else. -/
def setAspectRatioOp (ratio : Option ℚ) (s : EditorState) : EditorState :=
  { s with aspectRatio := ratio }

/-- The 2-unit-wide stroke band painted by
ctx.strokeRect(x, y, width, height) with lineWidth 2 at integer
coordinates: the miter-joined frame between the outer rectangle grown by
1 unit and the inner rectangle shrunk by 1 unit.  At integer coordinates
every canvas pixel is either fully covered (painted opaque white) or
untouched, so the rasterization is exact. -/
abbrev strokeBand (rx ry rw rh px py : ℕ) : Prop :=
  (rx ≤ px + 1 ∧ px ≤ rx + rw ∧ ry ≤ py + 1 ∧ py ≤ ry + rh) ∧
  ¬(rx + 1 ≤ px ∧ px + 2 ≤ rx + rw ∧ ry + 1 ≤ py ∧ py + 2 ≤ ry + rh)

/-- The canvas contents drawCropOverlay produces: the source image redrawn
in full, with the white crop outline stroked on top (strokeStyle white,
lineWidth 2). -/
def strokedCanvas (img : Buffer) (rx ry rw rh : ℕ) : Buffer :=
  ⟨img.width, img.height, (List.range (img.height * img.width)).map fun k =>
     if strokeBand rx ry rw rh (k % img.width) (k / img.width) then whitePixel
     else getPx img (k % img.width) (k / img.width)⟩

/-- The useEffect on [cropRect] that invokes drawCropOverlay while a crop
is active: it redraws the raw source image onto the canvas and strokes
the white outline of the current rectangle.  Modelled for the
integer-coordinate rectangles that arise in the scenarios below, where
the stroke rasterization is exact. -/
def drawCropOverlayEffect (s : EditorState) : EditorState :=
  if s.isCropping then
    match s.cropRect with
    | some r =>
        { s with canvas :=
            strokedCanvas s.sourceImage (qToNat r.x) (qToNat r.y) (qToNat r.width) (qToNat r.height) }
    | none => s
  else s

/-- confirmCrop from MediaUpload.tsx, composed with the recompute effect it
triggers: reads the selected sub-rectangle back from the current canvas
with getImageData, clears all crop state, stores the extracted buffer as
the new originalImageData and recomputes the canvas from it with the
current (unchanged) adjustment state. -/
def confirmCrop (s : EditorState) : EditorState :=
  match s.cropRect with
  | none => s
  | some r =>
      { s with isCropping := false, cropRect := none, aspectRatio := none,
               isDragging := false, dragStart := none, dragType := none,
               originalImageData :=
                 getImageDataRect s.canvas (qToNat r.x) (qToNat r.y) (qToNat r.width) (qToNat r.height),
               canvas :=
                 computePipeline
                   (getImageDataRect s.canvas (qToNat r.x) (qToNat r.y) (qToNat r.width) (qToNat r.height))
                   s.brightness s.contrast s.activeFilter }

/-- handleMouseDown from MediaUpload.tsx: ignored unless a crop is active
with a rectangle; otherwise hit-tests the pointer and starts a drag only
when a region is hit. -/
def handleMouseDown (mouseX mouseY : ℚ) (s : EditorState) : EditorState :=
  match s.cropRect with
  | none => s
  | some r =>
      if s.isCropping then
        match getDragType r mouseX mouseY with
        | some dt =>
            { s with isDragging := true, dragStart := some (mouseX, mouseY), dragType := some dt }
        | none => s
      else s

/-- The adjustment events of the editor: a brightness slider change, a
contrast slider change, or a filter button press, each composed with the
recompute effect it triggers. -/
inductive AdjOp where
  | setBrightnessOp (b : ℚ)
  | setContrastOp (c : ℚ)
  | setFilterOp (f : String)

/-- Dispatch one adjustment event to its handler. -/
def applyAdjOp (op : AdjOp) (s : EditorState) : EditorState :=
  match op with
  | .setBrightnessOp b => handleBrightnessChange b s
  | .setContrastOp c => handleContrastChange c s
  | .setFilterOp f => handleFilterChange f s

/-- Run a finite sequence of adjustment events. -/
def applyAdjOps (ops : List AdjOp) (s : EditorState) : EditorState :=
  ops.foldl (fun t op => applyAdjOp op t) s

/-! Helper lemmas shared by several claims. -/

/-- Element k of a map over List.range, read with getD. -/
lemma getD_range_map {α} (n k : ℕ) (f : ℕ → α) (d : α) (h : k < n) :
    ((List.range n).map f).getD k d = f k := by
  rw [List.getD_eq_getElem?_getD, List.getElem?_map, List.getElem?_range h]
  rfl

/-- Pixel (i, j) of a getImageData extraction is pixel (rx + i, ry + j) of
the source canvas. -/
lemma getPx_getImageDataRect (img : Buffer) (rx ry rw rh i j : ℕ)
    (hi : i < rw) (hj : j < rh) :
    getPx (getImageDataRect img rx ry rw rh) i j = getPx img (rx + i) (ry + j) := by
  have hk : j * rw + i < rh * rw := by
    calc j * rw + i < j * rw + rw := by omega
      _ = (j + 1) * rw := by ring
      _ ≤ rh * rw := Nat.mul_le_mul_right rw (by omega)
  have hmod : (j * rw + i) % rw = i := by
    rw [Nat.add_comm, Nat.add_mul_mod_self_right, Nat.mod_eq_of_lt hi]
  have hdiv : (j * rw + i) / rw = j := by
    rw [Nat.add_comm, Nat.add_mul_div_right _ _ (by omega), Nat.div_eq_of_lt hi]
    omega
  simp only [getPx, getImageDataRect]
  rw [if_pos (And.intro hi hj), getD_range_map _ _ _ _ hk, hmod, hdiv]

/-- Pixel (x, y) of the overlay canvas: white on the stroke band, the
source pixel elsewhere. -/
lemma getPx_strokedCanvas (img : Buffer) (rx ry rw rh x y : ℕ)
    (hx : x < img.width) (hy : y < img.height) :
    getPx (strokedCanvas img rx ry rw rh) x y =
      if strokeBand rx ry rw rh x y then whitePixel else getPx img x y := by
  have hk : y * img.width + x < img.height * img.width := by
    calc y * img.width + x < y * img.width + img.width := by omega
      _ = (y + 1) * img.width := by ring
      _ ≤ img.height * img.width := Nat.mul_le_mul_right img.width (by omega)
  have hmod : (y * img.width + x) % img.width = x := by
    rw [Nat.add_comm, Nat.add_mul_mod_self_right, Nat.mod_eq_of_lt hx]
  have hdiv : (y * img.width + x) / img.width = y := by
    rw [Nat.add_comm, Nat.add_mul_div_right _ _ (by omega), Nat.div_eq_of_lt hx]
    omega
  conv_lhs => simp only [getPx, strokedCanvas]
  rw [if_pos (And.intro hx hy), getD_range_map _ _ _ _ hk, hmod, hdiv]
  simp only [getPx]

/-- Every pixel of a solid buffer inside its bounds is the fill pixel. -/
lemma getPx_solidBuffer (w h x y : ℕ) (p : Pixel) (hx : x < w) (hy : y < h) :
    getPx (solidBuffer w h p) x y = p := by
  have hk : y * w + x < w * h := by
    calc y * w + x < y * w + w := by omega
      _ = (y + 1) * w := by ring
      _ ≤ h * w := Nat.mul_le_mul_right w (by omega)
      _ = w * h := Nat.mul_comm h w
  simp only [getPx, solidBuffer]
  rw [if_pos (And.intro hx hy), List.getD_eq_getElem?_getD, List.getElem?_replicate]
  simp [hk]

/-- Adjustment events never touch originalImageData. -/
lemma applyAdjOps_originalImageData (ops : List AdjOp) :
    ∀ s : EditorState, (applyAdjOps ops s).originalImageData = s.originalImageData := by
  induction ops with
  | nil => intro s; rfl
  | cons op rest ih =>
      intro s
      show (applyAdjOps rest (applyAdjOp op s)).originalImageData = _
      rw [ih]
      cases op <;> rfl

/-- The final clamp of handleMouseMove is the identity on rectangles that
already lie inside the canvas. -/
lemma clampRect_id (cw ch : ℚ) (r : Rect) (h : inBounds cw ch r) : clampRect cw ch r = r := by
  obtain ⟨h1, h2, h3, h4⟩ := h
  have hx : max 0 (min (cw - r.width) r.x) = r.x := by
    rw [min_eq_right (by linarith), max_eq_right h1]
  have hy : max 0 (min (ch - r.height) r.y) = r.y := by
    rw [min_eq_right (by linarith), max_eq_right h2]
  unfold clampRect
  rw [hx, hy, min_eq_right (by linarith), min_eq_right (by linarith)]

/-! Claims. -/

/-- C2: for every loaded image and every finite sequence of brightness,
contrast and filter changes, resetAdjustments afterwards yields a canvas
buffer identical to the buffer captured immediately after
loadImageToCanvas; no intermediate adjustment leaves residue. -/
theorem resetAdjustments_restores_loaded_buffer (img : Buffer) (ops : List AdjOp) :
    (resetAdjustments (applyAdjOps ops (loadImageToCanvas img))).canvas = img := by
  show (applyAdjOps ops (loadImageToCanvas img)).originalImageData = img
  rw [applyAdjOps_originalImageData]
  rfl

/-- C3: the brightness/contrast step maps each R, G, B channel value v to
clamp(contrastFactor * ((v + brightness) - 128) + 128, 0, 255) with
contrastFactor = (259 * (contrast + 255)) / (255 * (259 - contrast)),
leaves every alpha value unchanged (both stated by equality with the
formula transcribed from the spec, specBrightnessContrastPixel, and by the
explicit alpha projection), and is a pure pass-through when
brightness = 0 and contrast = 0. -/
theorem applyBrightnessContrast_matches_spec_formula :
    (∀ (img : Buffer) (brightness contrast : ℚ),
        applyBrightnessContrast img brightness contrast =
          { img with data := img.data.map (specBrightnessContrastPixel brightness contrast) }) ∧
    (∀ (img : Buffer) (brightness contrast : ℚ),
        (applyBrightnessContrast img brightness contrast).data.map Pixel.a =
          img.data.map Pixel.a) ∧
    (∀ img : Buffer, brightnessContrastStep img 0 0 = img) := by
  refine ⟨fun img brightness contrast => rfl, fun img brightness contrast => ?_, fun img => ?_⟩
  · show (img.data.map _).map Pixel.a = _
    rw [List.map_map]
    rfl
  · show (if (0 : ℚ) ≠ 0 ∨ (0 : ℚ) ≠ 0 then _ else img) = img
    simp

/-- C10: selecting the active filter again toggles it off.  The stored
filter after handleFilterChange f is f when the current filter differs
from f and none when it already equals f; the canvas is recomputed from
the original buffer with that new filter; and a recompute with no filter
skips the filter stage entirely, showing the unfiltered image. -/
theorem handleFilterChange_toggles :
    (∀ (s : EditorState) (f : String),
        (handleFilterChange f s).activeFilter =
          (if s.activeFilter = some f then none else some f) ∧
        (handleFilterChange f s).canvas =
          computePipeline s.originalImageData s.brightness s.contrast
            (if s.activeFilter = some f then none else some f)) ∧
    (∀ img : Buffer, filterStep img none = img) := by
  exact ⟨fun s f => ⟨rfl, rfl⟩, fun img => rfl⟩

/-- An 8 × 8 opaque black test image.  startCrop on it produces the
integer-coordinate rectangle (2, 2, 4, 4). -/
def demoImage : Buffer := solidBuffer 8 8 blackPixel

/-- The initial selection startCrop centers on the 8 × 8 demo image. -/
lemma startCrop_demoImage :
    (startCrop (loadImageToCanvas demoImage)).cropRect = some ⟨2, 2, 4, 4⟩ := by
  simp only [startCrop, loadImageToCanvas, demoImage, solidBuffer]
  norm_num

/-- C6 (counterexample): setAspectRatio(2) leaves the current rectangle
(2, 2, 4, 4) untouched, so its sides still have ratio 4 / 4 = 1 and not
the requested 2: the claimed immediate reshaping does not happen. -/
theorem setAspectRatio_does_not_reshape :
    (setAspectRatioOp (some 2) (startCrop (loadImageToCanvas demoImage))).cropRect =
      (startCrop (loadImageToCanvas demoImage)).cropRect ∧
    (startCrop (loadImageToCanvas demoImage)).cropRect = some ⟨2, 2, 4, 4⟩ ∧
    ¬((4 : ℚ) / 4 = 2) :=
  ⟨rfl, startCrop_demoImage, by norm_num⟩

/-- C6 (amended): setAspectRatio(r) only records r as the active
constraint; the crop rectangle (and the canvas) are left unchanged, and
the ratio only takes effect on subsequent resize drags. -/
theorem setAspectRatio_only_records (s : EditorState) (ratio : Option ℚ) :
    (setAspectRatioOp ratio s).aspectRatio = ratio ∧
    (setAspectRatioOp ratio s).cropRect = s.cropRect ∧
    (setAspectRatioOp ratio s).canvas = s.canvas :=
  ⟨rfl, rfl, rfl⟩

/-- C4 (counterexample): after committing a crop with brightness 50, the
brightness state is still 50, not the default 0 the claim requires. -/
theorem confirmCrop_keeps_brightness :
    (confirmCrop (handleBrightnessChange 50 (startCrop (loadImageToCanvas demoImage)))).brightness
      = 50 ∧ (50 : ℚ) ≠ 0 := by
  constructor
  · have h : (handleBrightnessChange 50 (startCrop (loadImageToCanvas demoImage))).cropRect =
        some ⟨2, 2, 4, 4⟩ := startCrop_demoImage
    simp only [confirmCrop, h]
    rfl
  · norm_num

/-- C4 (amended): confirmCrop replaces originalImageData and the canvas
with the sub-buffer read back from the canvas and clears all crop state
(rectangle, aspect ratio, drag), but does not reset the AdjustmentState:
brightness, contrast and the active filter keep their values and are
re-applied to the new buffer by the recompute. -/
theorem confirmCrop_preserves_adjustments (s : EditorState) (r : Rect)
    (h : s.cropRect = some r) :
    (confirmCrop s).brightness = s.brightness ∧
    (confirmCrop s).contrast = s.contrast ∧
    (confirmCrop s).activeFilter = s.activeFilter ∧
    (confirmCrop s).isCropping = false ∧
    (confirmCrop s).cropRect = none ∧
    (confirmCrop s).aspectRatio = none ∧
    (confirmCrop s).originalImageData =
      getImageDataRect s.canvas (qToNat r.x) (qToNat r.y) (qToNat r.width) (qToNat r.height) ∧
    (confirmCrop s).canvas =
      computePipeline
        (getImageDataRect s.canvas (qToNat r.x) (qToNat r.y) (qToNat r.width) (qToNat r.height))
        s.brightness s.contrast s.activeFilter := by
  simp [confirmCrop, h]

/-- Witness for the amended C4 theorem at the demo state. -/
theorem confirmCrop_preserves_adjustments_witness :
    (confirmCrop (startCrop (loadImageToCanvas demoImage))).brightness =
      (startCrop (loadImageToCanvas demoImage)).brightness ∧
    (confirmCrop (startCrop (loadImageToCanvas demoImage))).contrast =
      (startCrop (loadImageToCanvas demoImage)).contrast ∧
    (confirmCrop (startCrop (loadImageToCanvas demoImage))).activeFilter =
      (startCrop (loadImageToCanvas demoImage)).activeFilter ∧
    (confirmCrop (startCrop (loadImageToCanvas demoImage))).isCropping = false ∧
    (confirmCrop (startCrop (loadImageToCanvas demoImage))).cropRect = none ∧
    (confirmCrop (startCrop (loadImageToCanvas demoImage))).aspectRatio = none ∧
    (confirmCrop (startCrop (loadImageToCanvas demoImage))).originalImageData =
      getImageDataRect (startCrop (loadImageToCanvas demoImage)).canvas
        (qToNat (2 : ℚ)) (qToNat (2 : ℚ)) (qToNat (4 : ℚ)) (qToNat (4 : ℚ)) ∧
    (confirmCrop (startCrop (loadImageToCanvas demoImage))).canvas =
      computePipeline
        (getImageDataRect (startCrop (loadImageToCanvas demoImage)).canvas
          (qToNat (2 : ℚ)) (qToNat (2 : ℚ)) (qToNat (4 : ℚ)) (qToNat (4 : ℚ)))
        (startCrop (loadImageToCanvas demoImage)).brightness
        (startCrop (loadImageToCanvas demoImage)).contrast
        (startCrop (loadImageToCanvas demoImage)).activeFilter :=
  confirmCrop_preserves_adjustments (startCrop (loadImageToCanvas demoImage)) ⟨2, 2, 4, 4⟩
    startCrop_demoImage

/-- C8 (counterexample): the unrecognized filter identifier "blur" is not
rejected at the handleFilterChange boundary: the stored filter state
changes from none to some "blur". -/
theorem handleFilterChange_accepts_unrecognized :
    ¬ recognizedFilter "blur" ∧
    (loadImageToCanvas demoImage).activeFilter = none ∧
    (handleFilterChange "blur" (loadImageToCanvas demoImage)).activeFilter = some "blur" := by
  refine ⟨by decide, rfl, rfl⟩

/-- C8 (amended): handleFilterChange performs no validation: an
unrecognized identifier is stored like any other (toggling against the
current value), the per-pixel pass still runs, and only its default
switch branch neutralizes the unknown identifier by copying every pixel
unchanged. -/
theorem unrecognized_filter_stored_and_harmless (s : EditorState) (f : String)
    (hf : ¬ recognizedFilter f) :
    (handleFilterChange f s).activeFilter =
      (if s.activeFilter = some f then none else some f) ∧
    ∀ img : Buffer, applyFilter img f = img := by
  refine ⟨rfl, fun img => ?_⟩
  simp only [recognizedFilter] at hf
  push_neg at hf
  obtain ⟨h1, h2, h3, h4, h5⟩ := hf
  unfold applyFilter applyFilterPixel
  simp only [if_neg h1, if_neg h2, if_neg h3, if_neg h4, if_neg h5]
  have hfun : (fun p : Pixel => Pixel.mk p.r p.g p.b p.a) = fun p : Pixel => p := rfl
  rw [hfun, List.map_id']

/-- Witness for the amended C8 theorem at the demo state with the
unrecognized identifier "blur". -/
theorem unrecognized_filter_stored_and_harmless_witness :
    ((handleFilterChange "blur" (loadImageToCanvas demoImage)).activeFilter =
      (if (loadImageToCanvas demoImage).activeFilter = some "blur" then none
       else some "blur")) ∧
    applyFilter demoImage "blur" = demoImage := by
  have h := unrecognized_filter_stored_and_harmless (loadImageToCanvas demoImage) "blur"
    (by decide)
  exact ⟨h.1, h.2 demoImage⟩

/-- The editor state after loading the 8 × 8 demo image, starting a crop
(selection (2, 2, 4, 4)), letting the cropRect effect draw the overlay,
and confirming the crop — the exact event sequence of a minimal crop. -/
def overlayCropScenario : EditorState :=
  confirmCrop (drawCropOverlayEffect (startCrop (loadImageToCanvas demoImage)))

/-- The overlay effect on the demo scenario redraws the source image with
the white outline of the rectangle (2, 2, 4, 4) stroked into the canvas. -/
lemma drawCropOverlayEffect_demo :
    drawCropOverlayEffect (startCrop (loadImageToCanvas demoImage)) =
      { startCrop (loadImageToCanvas demoImage) with
        canvas := strokedCanvas demoImage 2 2 4 4 } := by
  have hic : (startCrop (loadImageToCanvas demoImage)).isCropping = true := rfl
  simp only [drawCropOverlayEffect, hic, if_true, startCrop_demoImage]
  norm_num [qToNat]
  rfl

/-- C1: the committed crop does not reproduce the original pixels.  On the
8 × 8 all-black image with the default selection (2, 2, 4, 4), the
extracted buffer has the claimed 4 × 4 dimensions, but its pixel (0, 0)
is the opaque white of the crop outline that drawCropOverlay stroked
into the very canvas confirmCrop reads back with getImageData — it
differs from pixel (2, 2) of the original buffer, which is opaque black. -/
theorem confirmCrop_reads_back_overlay_outline :
    overlayCropScenario.originalImageData.width = 4 ∧
    overlayCropScenario.originalImageData.height = 4 ∧
    getPx overlayCropScenario.originalImageData 0 0 = whitePixel ∧
    getPx demoImage 2 2 = blackPixel ∧
    getPx overlayCropScenario.originalImageData 0 0 ≠ getPx demoImage 2 2 := by
  have hrect : (drawCropOverlayEffect (startCrop (loadImageToCanvas demoImage))).cropRect =
      some ⟨2, 2, 4, 4⟩ := by
    rw [drawCropOverlayEffect_demo]
    exact startCrop_demoImage
  have hbuf : overlayCropScenario.originalImageData =
      getImageDataRect (strokedCanvas demoImage 2 2 4 4) 2 2 4 4 := by
    unfold overlayCropScenario
    simp only [confirmCrop, hrect]
    rw [drawCropOverlayEffect_demo]
    norm_num [qToNat]
    rfl
  have hwhite : getPx overlayCropScenario.originalImageData 0 0 = whitePixel := by
    rw [hbuf, getPx_getImageDataRect _ _ _ _ _ _ _ (by norm_num) (by norm_num),
      getPx_strokedCanvas _ _ _ _ _ _ _ (by norm_num [demoImage, solidBuffer])
        (by norm_num [demoImage, solidBuffer]),
      if_pos (by decide)]
  have hblack : getPx demoImage 2 2 = blackPixel := by
    simp only [demoImage]
    exact getPx_solidBuffer 8 8 2 2 blackPixel (by norm_num) (by norm_num)
  refine ⟨by rw [hbuf]; rfl, by rw [hbuf]; rfl, hwhite, hblack, ?_⟩
  rw [hwhite, hblack]
  simp [whitePixel, blackPixel]

/-- C7 (counterexample): an in-progress south-east resize step on the
rectangle (0, 0, 50, 50) with delta (-40, 0) proposes width 10 < 20, yet
the step leaves the width at 50 — the whole change is rejected, the
dimension is not set to exactly 20 as the claim requires. -/
theorem resize_below_min_not_clamped_to_20 :
    (50 : ℚ) + (-40) < 20 ∧
    handleMouseMoveStep 100 100 none ⟨0, 0, 50, 50⟩ .resizeSE (-40) 0 = ⟨0, 0, 50, 50⟩ ∧
    (handleMouseMoveStep 100 100 none ⟨0, 0, 50, 50⟩ .resizeSE (-40) 0).width ≠ 20 := by
  have hd : applyDragDelta 100 100 none ⟨0, 0, 50, 50⟩ .resizeSE (-40) 0 = ⟨0, 0, 50, 50⟩ := by
    norm_num [applyDragDelta]
  have hstep : handleMouseMoveStep 100 100 none ⟨0, 0, 50, 50⟩ .resizeSE (-40) 0 =
      ⟨0, 0, 50, 50⟩ := by
    unfold handleMouseMoveStep
    rw [hd, clampRect_id _ _ _ (by norm_num [inBounds])]
  refine ⟨by norm_num, hstep, ?_⟩
  rw [hstep]
  norm_num

/-- C7 (amended): in a free (no aspect lock) drag, a resize step whose
proposed rectangle would have width or height at or below 20 buffer
units is rejected as a whole — the rectangle is left exactly as it was
(hence its dimensions never drop below 20), rather than the offending
dimension being clamped to exactly 20. -/
theorem resize_below_min_rejected (cw ch : ℚ) (r : Rect) (dt : DragType) (dx dy : ℚ)
    (hdt : dt ≠ .move) (hin : inBounds cw ch r) (hw : 20 < r.width) (hh : 20 < r.height)
    (hp : (proposedSize r dt dx dy).1 ≤ 20 ∨ (proposedSize r dt dx dy).2 ≤ 20) :
    handleMouseMoveStep cw ch none r dt dx dy = r := by
  have hd : applyDragDelta cw ch none r dt dx dy = r := by
    cases dt with
    | move => exact absurd rfl hdt
    | resizeNW =>
        simp only [proposedSize] at hp
        simp only [applyDragDelta]
        rw [if_neg (by rintro ⟨h1, h2, h3, h4⟩; rcases hp with hp | hp <;> linarith)]
    | resizeNE =>
        simp only [proposedSize] at hp
        simp only [applyDragDelta]
        rw [if_neg (by rintro ⟨h1, h2, h3, h4⟩; rcases hp with hp | hp <;> linarith)]
    | resizeSW =>
        simp only [proposedSize] at hp
        simp only [applyDragDelta]
        rw [if_neg (by rintro ⟨h1, h2, h3, h4⟩; rcases hp with hp | hp <;> linarith)]
    | resizeSE =>
        simp only [proposedSize] at hp
        simp only [applyDragDelta]
        rw [if_neg (by rintro ⟨h1, h2, h3, h4⟩; rcases hp with hp | hp <;> linarith)]
    | resizeN =>
        simp only [proposedSize] at hp
        simp only [applyDragDelta]
        rw [if_neg (by rintro ⟨h1, h2⟩; rcases hp with hp | hp <;> linarith)]
    | resizeS =>
        simp only [proposedSize] at hp
        simp only [applyDragDelta]
        rw [if_neg (by rintro ⟨h1, h2⟩; rcases hp with hp | hp <;> linarith)]
    | resizeW =>
        simp only [proposedSize] at hp
        simp only [applyDragDelta]
        rw [if_neg (by rintro ⟨h1, h2⟩; rcases hp with hp | hp <;> linarith)]
    | resizeE =>
        simp only [proposedSize] at hp
        simp only [applyDragDelta]
        rw [if_neg (by rintro ⟨h1, h2⟩; rcases hp with hp | hp <;> linarith)]
  unfold handleMouseMoveStep
  rw [hd, clampRect_id _ _ _ hin]

/-- Witness for the amended C7 theorem: a west-edge drag proposing width
10 leaves the 50 × 50 rectangle unchanged. -/
theorem resize_below_min_rejected_witness :
    handleMouseMoveStep 100 100 none ⟨0, 0, 50, 50⟩ .resizeW 40 0 = ⟨0, 0, 50, 50⟩ :=
  resize_below_min_rejected 100 100 ⟨0, 0, 50, 50⟩ .resizeW 40 0 (by decide)
    (by norm_num [inBounds]) (by norm_num) (by norm_num)
    (Or.inl (by norm_num [proposedSize]))

/-- C5 (counterexample): with aspect ratio 2 locked and the rectangle
(0, 0, 100, 50) satisfying it exactly, a south-east corner drag step with
delta (10, 10) produces (0, 0, 110, 60), whose ratio 110 / 60 is not 2:
corner resize steps add the same averaged delta to both dimensions and do
not preserve a non-square locked ratio. -/
theorem aspect_corner_resize_breaks_ratio :
    (100 : ℚ) / 50 = 2 ∧
    handleMouseMoveStep 1000 1000 (some 2) ⟨0, 0, 100, 50⟩ .resizeSE 10 10 = ⟨0, 0, 110, 60⟩ ∧
    (110 : ℚ) / 60 ≠ 2 := by
  have hd : applyDragDelta 1000 1000 (some 2) ⟨0, 0, 100, 50⟩ .resizeSE 10 10 =
      ⟨0, 0, 110, 60⟩ := by
    norm_num [applyDragDelta, arActive, max_def]
  have hstep : handleMouseMoveStep 1000 1000 (some 2) ⟨0, 0, 100, 50⟩ .resizeSE 10 10 =
      ⟨0, 0, 110, 60⟩ := by
    unfold handleMouseMoveStep
    rw [hd, clampRect_id _ _ _ (by norm_num [inBounds])]
  exact ⟨by norm_num, hstep, by norm_num⟩

/-- C5 (amended): after setAspectRatio(r) with r > 0, an edge-handle
resize step (N, S, W or E) that is accepted (it changes the rectangle)
and whose proposed rectangle already lies within the canvas leaves the
rectangle with width / height exactly r; corner-handle steps and
rejected steps need not restore or preserve the ratio. -/
theorem aspect_edge_resize_preserves_ratio (cw ch : ℚ) (r : Rect) (ratio dx dy : ℚ)
    (dt : DragType)
    (hdt : dt = .resizeN ∨ dt = .resizeS ∨ dt = .resizeW ∨ dt = .resizeE)
    (hr : 0 < ratio)
    (hchange : applyDragDelta cw ch (some ratio) r dt dx dy ≠ r)
    (hin : inBounds cw ch (applyDragDelta cw ch (some ratio) r dt dx dy)) :
    (handleMouseMoveStep cw ch (some ratio) r dt dx dy).width /
      (handleMouseMoveStep cw ch (some ratio) r dt dx dy).height = ratio := by
  have har : arActive (some ratio) = some ratio := by
    simp [arActive, ne_of_gt hr]
  unfold handleMouseMoveStep
  rw [clampRect_id _ _ _ hin]
  rcases hdt with h | h | h | h <;> subst h
  · simp only [applyDragDelta, har] at hchange ⊢
    by_cases hg : r.height - dy > 20 ∧ r.y + dy ≥ 0
    · rw [if_pos hg]
      have hne : r.height - dy ≠ 0 := by
        have := hg.1
        intro hzero
        linarith
      show (r.height - dy) * ratio / (r.height - dy) = ratio
      rw [mul_comm, mul_div_assoc, div_self hne, mul_one]
    · rw [if_neg hg] at hchange
      exact absurd rfl hchange
  · simp only [applyDragDelta, har] at hchange ⊢
    by_cases hg : r.height + dy > 20 ∧ r.y + (r.height + dy) ≤ ch
    · rw [if_pos hg]
      have hne : r.height + dy ≠ 0 := by
        have := hg.1
        intro hzero
        linarith
      show (r.height + dy) * ratio / (r.height + dy) = ratio
      rw [mul_comm, mul_div_assoc, div_self hne, mul_one]
    · rw [if_neg hg] at hchange
      exact absurd rfl hchange
  · simp only [applyDragDelta, har] at hchange ⊢
    by_cases hg : r.width - dx > 20 ∧ r.x + dx ≥ 0
    · rw [if_pos hg]
      have hne : r.width - dx ≠ 0 := by
        have := hg.1
        intro hzero
        linarith
      show (r.width - dx) / ((r.width - dx) / ratio) = ratio
      rw [div_div_eq_mul_div, mul_comm, mul_div_assoc, div_self hne, mul_one]
    · rw [if_neg hg] at hchange
      exact absurd rfl hchange
  · simp only [applyDragDelta, har] at hchange ⊢
    by_cases hg : r.width + dx > 20 ∧ r.x + (r.width + dx) ≤ cw
    · rw [if_pos hg]
      have hne : r.width + dx ≠ 0 := by
        have := hg.1
        intro hzero
        linarith
      show (r.width + dx) / ((r.width + dx) / ratio) = ratio
      rw [div_div_eq_mul_div, mul_comm, mul_div_assoc, div_self hne, mul_one]
    · rw [if_neg hg] at hchange
      exact absurd rfl hchange

/-- Witness for the amended C5 theorem: a north-edge drag with ratio 2
locked yields the rectangle (80, 80, 240, 120), whose ratio is exactly 2. -/
theorem aspect_edge_resize_preserves_ratio_witness :
    (handleMouseMoveStep 1000 1000 (some 2) ⟨100, 100, 200, 100⟩ .resizeN 0 (-20)).width /
      (handleMouseMoveStep 1000 1000 (some 2) ⟨100, 100, 200, 100⟩ .resizeN 0 (-20)).height
      = 2 :=
  aspect_edge_resize_preserves_ratio 1000 1000 ⟨100, 100, 200, 100⟩ 2 0 (-20) .resizeN
    (Or.inl rfl) (by norm_num)
    (by norm_num [applyDragDelta, arActive])
    (by norm_num [applyDragDelta, arActive, inBounds])

/-- The 15-unit tolerance interval around an anchor coordinate, spelled as
the pair of comparisons the source writes. -/
lemma near_iff (m c : ℚ) : near m c ↔ (m ≥ c - 15 ∧ m ≤ c + 15) := by
  rw [show near m c ↔ |m - c| ≤ 15 from Iff.rfl, abs_le]
  constructor <;> rintro ⟨h1, h2⟩ <;> constructor <;> linarith

/-- An editor state in mid-crop over a 200 × 200 selection, used to
witness the no-hit behaviour of handleMouseDown. -/
def demoHitState : EditorState :=
  { loadImageToCanvas demoImage with isCropping := true, cropRect := some ⟨0, 0, 200, 200⟩ }

/-- C9: pointer-down hit-testing uses the fixed 15-buffer-unit tolerance
and examines the regions in the priority order NW, NE, SW, SE corners,
then N, S, W, E edges, then the interior Move region — the first region
containing the point decides the drag kind (getDragType equals the
first-match priorityHitTest over hitRegion) — and a point in none of the
regions starts no drag: handleMouseDown leaves the state unchanged. -/
theorem getDragType_is_priority_first_match :
    (∀ (rect : Rect) (mouseX mouseY : ℚ),
        getDragType rect mouseX mouseY = priorityHitTest rect mouseX mouseY) ∧
    (∀ (s : EditorState) (rect : Rect) (mouseX mouseY : ℚ),
        s.isCropping = true → s.cropRect = some rect →
        getDragType rect mouseX mouseY = none →
        handleMouseDown mouseX mouseY s = s) := by
  constructor
  · intro rect mouseX mouseY
    unfold getDragType priorityHitTest
    simp only [hitRegion, near_iff, ge_iff_le, and_assoc]
  · intro s rect mouseX mouseY hic hcr hnone
    simp only [handleMouseDown, hcr, hic, if_true, hnone]

/-- Witness for the C9 theorem: the point (17, 5) on the selection
(0, 0, 200, 200) lies in no hit region (it is inside the rectangle but
outside every handle and outside the inset Move region), so the source
hit test, the priority first-match and the no-drag behaviour all agree
there. -/
theorem getDragType_is_priority_first_match_witness :
    getDragType ⟨0, 0, 200, 200⟩ 17 5 = priorityHitTest ⟨0, 0, 200, 200⟩ 17 5 ∧
    handleMouseDown 17 5 demoHitState = demoHitState := by
  have hnone : getDragType ⟨0, 0, 200, 200⟩ 17 5 = none := by
    norm_num [getDragType]
  exact ⟨getDragType_is_priority_first_match.1 ⟨0, 0, 200, 200⟩ 17 5,
    getDragType_is_priority_first_match.2 demoHitState ⟨0, 0, 200, 200⟩ 17 5 rfl rfl hnone⟩

end ImageEditor







